import Mathlib

/-!
Verification of the FaaSr secret-resolution module
(`FaaSr_py/secrets_api/secret.py`).

The module has two functions:

* `faasr_secret_gh` reads a secret from the process environment
  (GitHub Actions secret store) and raises `KeyError` when absent.
* `faasr_secret` walks the workflow payload to find the compute-server
  type of the current function and dispatches to the platform getter,
  raising `ValueError`, `RuntimeError`, `KeyError` or
  `NotImplementedError` on the various failure paths.

The embedding models the process environment as a function
`String → Option String` (the behaviour of `os.getenv`), the payload as a
typed record whose dict-valued fields are association lists (Python dicts
restricted to the keys the code reads; an absent key is `none`), and a
raised exception as the `error` case of `Except`.
-/

namespace FaaSrSecrets

/-- Python exception kinds raised by the module, each carrying its
message string. -/
inductive PyError where
  | valueError : String → PyError
  | runtimeError : String → PyError
  | keyError : String → PyError
  | notImplementedError : String → PyError
deriving DecidableEq, Repr

/-- The process environment-variable store, as read by `os.getenv`:
a name either has a string value or is absent. -/
abbrev Env := String → Option String

/-- An entry of `ActionList`: the code only reads the `FaaSServer` key,
which may be absent. -/
structure ActionConfig where
  FaaSServer : Option String
deriving DecidableEq, Repr

/-- An entry of `ComputeServers`: the code only reads the `FaaSType` key,
which may be absent. -/
structure ServerConfig where
  FaaSType : Option String
deriving DecidableEq, Repr

/-- The workflow payload dict, restricted to the keys `faasr_secret`
reads.  Each top-level key may be absent (`none`); the dict-valued keys
are association lists keyed by function / server name. -/
structure Payload where
  FunctionInvoke : Option String
  ActionList : Option (List (String × ActionConfig))
  ComputeServers : Option (List (String × ServerConfig))
deriving DecidableEq, Repr

/-- Message of the `ValueError` for an empty secret name. -/
def emptySecretMsg : String := "faasr_secret: secret_name cannot be empty"

/-- Message of the `RuntimeError` when `FunctionInvoke` is absent or empty. -/
def noCurrentMsg : String :=
  "faasr_secret: Cannot determine current function from payload"

/-- Message of the `RuntimeError` when the current function is not in
`ActionList`. -/
def notInActionListMsg (f : String) : String :=
  "faasr_secret: Function " ++ f ++ " not found in ActionList"

/-- Message of the `RuntimeError` when the action config lacks `FaaSServer`. -/
def noServerMsg (f : String) : String :=
  "faasr_secret: FaaSServer not found for function " ++ f

/-- Message of the `RuntimeError` when the server is missing from
`ComputeServers` or lacks `FaaSType`. -/
def badComputeServerMsg (s : String) : String :=
  "faasr_secret: Compute server " ++ s ++ " not found or missing FaaSType"

/-- Message of the `NotImplementedError` for a non-GitHubActions server type. -/
def unsupportedMsg (t : String) : String :=
  "faasr_secret: Compute server type '" ++ t ++ "' is not supported. " ++
    "Only GitHubActions is currently supported."

/-- Message of the `KeyError` when the secret is absent from the environment. -/
def secretNotFoundMsg (n : String) : String :=
  "faasr_secret: Secret '" ++ n ++ "' not found in environment variables"

/-- Embedding of `faasr_secret_gh`: `os.getenv(secret_name)`; raise
`KeyError` when the result is `None`, else return the value unchanged. -/
def faasr_secret_gh (env : Env) (secret_name : String) : Except PyError String :=
  match env secret_name with
  | none => .error (.keyError (secretNotFoundMsg secret_name))
  | some secret_value => .ok secret_value

/-- The `current_action` read: `faasr_payload.get("FunctionInvoke", "")`
defaults an absent key to the empty string. -/
def currentAction (p : Payload) : String := p.FunctionInvoke.getD ""

/-- The `faasr_payload["ActionList"][current_action]` lookup; a `KeyError`
from either subscript (absent `ActionList` key or absent function entry)
is caught by the same `except` clause, hence the single `none`. -/
def lookupActionConfig (p : Payload) : Option ActionConfig :=
  p.ActionList.bind (fun al => al.lookup (currentAction p))

/-- The `faasr_payload["ComputeServers"][server_name]["FaaSType"]` reads;
a `KeyError` from any of the three subscripts is caught by the same
`except` clause, hence the single `none`. -/
def lookupServerType (p : Payload) (server_name : String) : Option String :=
  (p.ComputeServers.bind (fun cs => cs.lookup server_name)).bind
    (fun sc => sc.FaaSType)

/-- Embedding of `faasr_secret`: validate the secret name, resolve the
current function, its action config, its server name and server type in
the order of the source, then dispatch on the server type. -/
def faasr_secret (env : Env) (faasr_payload : Payload) (secret_name : String) :
    Except PyError String :=
  if secret_name = "" then
    .error (.valueError emptySecretMsg)
  else
    let current_action := currentAction faasr_payload
    if current_action = "" then
      .error (.runtimeError noCurrentMsg)
    else
      match lookupActionConfig faasr_payload with
      | none => .error (.runtimeError (notInActionListMsg current_action))
      | some action_config =>
        match action_config.FaaSServer with
        | none => .error (.runtimeError (noServerMsg current_action))
        | some server_name =>
          match lookupServerType faasr_payload server_name with
          | none => .error (.runtimeError (badComputeServerMsg server_name))
          | some server_type =>
            if server_type = "GitHubActions" then
              faasr_secret_gh env secret_name
            else
              .error (.notImplementedError (unsupportedMsg server_type))

/-- State-threaded embedding of `faasr_secret`, making the heap effect on
the caller's payload dict explicit: every step of the source only reads
the dict (`.get` / `[]`), so each branch returns the payload it read
from.  Used to state the frame and idempotence claims. -/
def faasr_secret_st (env : Env) (faasr_payload : Payload) (secret_name : String) :
    Except PyError String × Payload :=
  if secret_name = "" then
    (.error (.valueError emptySecretMsg), faasr_payload)
  else
    let current_action := currentAction faasr_payload
    if current_action = "" then
      (.error (.runtimeError noCurrentMsg), faasr_payload)
    else
      match lookupActionConfig faasr_payload with
      | none => (.error (.runtimeError (notInActionListMsg current_action)), faasr_payload)
      | some action_config =>
        match action_config.FaaSServer with
        | none => (.error (.runtimeError (noServerMsg current_action)), faasr_payload)
        | some server_name =>
          match lookupServerType faasr_payload server_name with
          | none =>
            (.error (.runtimeError (badComputeServerMsg server_name)), faasr_payload)
          | some server_type =>
            if server_type = "GitHubActions" then
              (faasr_secret_gh env secret_name, faasr_payload)
            else
              (.error (.notImplementedError (unsupportedMsg server_type)), faasr_payload)

/-- The state-threaded run returns the pure result together with the
untouched payload. -/
theorem faasr_secret_st_eq (env : Env) (p : Payload) (sn : String) :
    faasr_secret_st env p sn = (faasr_secret env p sn, p) := by
  unfold faasr_secret_st faasr_secret
  by_cases h : sn = "" <;> simp [h]
  by_cases h2 : currentAction p = "" <;> simp [h2]
  cases lookupActionConfig p with
  | none => simp
  | some ac =>
    cases hs : ac.FaaSServer with
    | none => simp [hs]
    | some srv =>
      cases ht2 : lookupServerType p srv with
      | none => simp [hs, ht2]
      | some t => by_cases ht : t = "GitHubActions" <;> simp [hs, ht2, ht]

/-- Environment with `MY_SECRET=abc123` and nothing else (the spec
scenario). -/
def envMS : Env := fun n => if n = "MY_SECRET" then some "abc123" else none

/-- Empty environment store. -/
def envEmpty : Env := fun _ => none

/-- The spec scenario payload: `f1` runs on `s1`, a GitHubActions server. -/
def ghPayload : Payload :=
  ⟨some "f1", some [("f1", ⟨some "s1"⟩)], some [("s1", ⟨some "GitHubActions"⟩)]⟩

/-- The scenario payload with the server type replaced by `AWS Lambda`. -/
def awsPayload : Payload :=
  ⟨some "f1", some [("f1", ⟨some "s1"⟩)], some [("s1", ⟨some "AWS Lambda"⟩)]⟩

/-- Payload with an empty `FunctionInvoke` and no `ActionList` at all. -/
def emptyInvokePayload : Payload := ⟨some "", none, none⟩

/-- Payload whose `FunctionInvoke` names a function missing from
`ActionList`. -/
def missingActionPayload : Payload :=
  ⟨some "f2", some [("f1", ⟨some "s1"⟩)], some [("s1", ⟨some "GitHubActions"⟩)]⟩

/-- The C1 shape instantiated with the empty string as function name. -/
def emptyFShapePayload : Payload :=
  ⟨some "", some [("", ⟨some "s1"⟩)], some [("s1", ⟨some "GitHubActions"⟩)]⟩

/-- C5: for every environment store and every payload whatsoever,
`faasr_secret` called with the empty string as secret name fails with the
Invalid-Argument `ValueError`; the result is a constant independent of
the payload and of the environment, so neither is consulted. -/
theorem faasr_secret_empty_name_valueerror (env : Env) (p : Payload) :
    faasr_secret env p "" = .error (.valueError emptySecretMsg) := by
  simp [faasr_secret]

/-- C3: for every name present in the environment store,
`faasr_secret_gh` returns the stored value itself, unchanged. -/
theorem faasr_secret_gh_present_returns_value (env : Env) (n v : String)
    (h : env n = some v) : faasr_secret_gh env n = .ok v := by
  simp [faasr_secret_gh, h]

/-- Witness for C3 at the spec scenario: `MY_SECRET=abc123`. -/
theorem faasr_secret_gh_present_returns_value_witness :
    faasr_secret_gh envMS "MY_SECRET" = .ok "abc123" :=
  faasr_secret_gh_present_returns_value envMS "MY_SECRET" "abc123" rfl

/-- C4: for every name absent from the environment store,
`faasr_secret_gh` fails with the Not-Found `KeyError` whose message names
the missing secret, and returns no value. -/
theorem faasr_secret_gh_absent_keyerror (env : Env) (n : String)
    (h : env n = none) :
    faasr_secret_gh env n = .error (.keyError (secretNotFoundMsg n)) := by
  simp [faasr_secret_gh, h]

/-- Witness for C4 on the empty environment store. -/
theorem faasr_secret_gh_absent_keyerror_witness :
    faasr_secret_gh envEmpty "MY_SECRET" =
      .error (.keyError (secretNotFoundMsg "MY_SECRET")) :=
  faasr_secret_gh_absent_keyerror envEmpty "MY_SECRET" rfl

/-- C10: `faasr_secret_gh` does no emptiness validation of its own: for
the empty name absent from the environment store it fails with the
Not-Found `KeyError`, never with the Invalid-Argument `ValueError` that
`faasr_secret` raises for the same name. -/
theorem faasr_secret_gh_empty_name_keyerror (env : Env) (h : env "" = none) :
    faasr_secret_gh env "" = .error (.keyError (secretNotFoundMsg "")) ∧
      ∀ m, faasr_secret_gh env "" ≠ .error (.valueError m) := by
  refine ⟨by simp [faasr_secret_gh, h], ?_⟩
  intro m hm
  simp [faasr_secret_gh, h] at hm

/-- Witness for C10 on the empty environment store. -/
theorem faasr_secret_gh_empty_name_keyerror_witness :
    faasr_secret_gh envEmpty "" = .error (.keyError (secretNotFoundMsg "")) :=
  (faasr_secret_gh_empty_name_keyerror envEmpty rfl).1

/-- C1 counterexample: the claimed shape admits the empty string as
function name, and there `faasr_secret` raises the cannot-determine
`RuntimeError` instead of returning the stored secret value, even though
the environment holds `MY_SECRET=abc123`. -/
theorem faasr_secret_shape_empty_f_counterexample :
    envMS "MY_SECRET" = some "abc123" ∧
      faasr_secret envMS emptyFShapePayload "MY_SECRET" =
        .error (.runtimeError noCurrentMsg) ∧
      faasr_secret envMS emptyFShapePayload "MY_SECRET" ≠
        Except.ok "abc123" := by
  refine ⟨rfl, rfl, ?_⟩
  intro h
  simp [faasr_secret, emptyFShapePayload, currentAction] at h

/-- C1 (amended): for every payload of the shape
`FunctionInvoke: f, ActionList: [f ↦ FaaSServer: s],
ComputeServers: [s ↦ FaaSType: GitHubActions]` with `f` non-empty, and
every non-empty secret name present in the environment store,
`faasr_secret` returns exactly the stored value. -/
theorem faasr_secret_wellformed_gh_returns_env_value
    (env : Env) (f s sn v : String) (hf : f ≠ "") (hsn : sn ≠ "")
    (hv : env sn = some v) :
    faasr_secret env
      ⟨some f, some [(f, ⟨some s⟩)], some [(s, ⟨some "GitHubActions"⟩)]⟩ sn =
      .ok v := by
  simp [faasr_secret, currentAction, lookupActionConfig, lookupServerType,
    faasr_secret_gh, List.lookup, hf, hsn, hv]

/-- Witness for the amended C1 at the spec scenario. -/
theorem faasr_secret_wellformed_gh_returns_env_value_witness :
    faasr_secret envMS
      ⟨some "f1", some [("f1", ⟨some "s1"⟩)],
        some [("s1", ⟨some "GitHubActions"⟩)]⟩ "MY_SECRET" =
      .ok "abc123" :=
  faasr_secret_wellformed_gh_returns_env_value envMS "f1" "s1" "MY_SECRET"
    "abc123" (by decide) (by decide) rfl

/-- C2: `faasr_secret` validates in the fixed source order (secret name
non-empty, then current function determined, then `ActionList` entry,
then `FaaSServer`, then `ComputeServers` entry with `FaaSType`, then
platform dispatch), and the error raised is the one of the earliest
failing step. -/
theorem faasr_secret_validation_order (env : Env) (p : Payload) (sn : String) :
    (sn = "" → faasr_secret env p sn = .error (.valueError emptySecretMsg)) ∧
    (sn ≠ "" → currentAction p = "" →
      faasr_secret env p sn = .error (.runtimeError noCurrentMsg)) ∧
    (sn ≠ "" → currentAction p ≠ "" → lookupActionConfig p = none →
      faasr_secret env p sn =
        .error (.runtimeError (notInActionListMsg (currentAction p)))) ∧
    (∀ ac, sn ≠ "" → currentAction p ≠ "" → lookupActionConfig p = some ac →
      ac.FaaSServer = none →
      faasr_secret env p sn =
        .error (.runtimeError (noServerMsg (currentAction p)))) ∧
    (∀ ac srv, sn ≠ "" → currentAction p ≠ "" → lookupActionConfig p = some ac →
      ac.FaaSServer = some srv → lookupServerType p srv = none →
      faasr_secret env p sn =
        .error (.runtimeError (badComputeServerMsg srv))) ∧
    (∀ ac srv t, sn ≠ "" → currentAction p ≠ "" → lookupActionConfig p = some ac →
      ac.FaaSServer = some srv → lookupServerType p srv = some t →
      ((t = "GitHubActions" → faasr_secret env p sn = faasr_secret_gh env sn) ∧
        (t ≠ "GitHubActions" → faasr_secret env p sn =
          .error (.notImplementedError (unsupportedMsg t))))) := by
  refine ⟨?_, ?_, ?_, ?_, ?_, ?_⟩
  · intro h; simp [faasr_secret, h]
  · intro h h2; simp [faasr_secret, h, h2]
  · intro h h2 h3; simp [faasr_secret, h, h2, h3]
  · intro ac h h2 h3 h4; simp [faasr_secret, h, h2, h3, h4]
  · intro ac srv h h2 h3 h4 h5; simp [faasr_secret, h, h2, h3, h4, h5]
  · intro ac srv t h h2 h3 h4 h5
    constructor <;> intro ht <;> simp [faasr_secret, h, h2, h3, h4, h5, ht]

/-- Witness for C2 at the claim's example: empty `FunctionInvoke` and a
missing `ActionList` together raise the cannot-determine `RuntimeError`,
not the `ActionList` one. -/
theorem faasr_secret_validation_order_witness :
    faasr_secret envMS emptyInvokePayload "MY_SECRET" =
      .error (.runtimeError noCurrentMsg) :=
  (faasr_secret_validation_order envMS emptyInvokePayload "MY_SECRET").2.1
    (by decide) (by rfl)

/-- C6: for every payload that resolves the current function to a server
whose `FaaSType` is present but differs from `"GitHubActions"`, and every
non-empty secret name, `faasr_secret` fails with the `NotImplementedError`
whose message names that type and states that only GitHubActions is
supported; the right-hand side is a constant in `env`, so the environment
store is never consulted. -/
theorem faasr_secret_unsupported_platform (env : Env) (p : Payload)
    (sn : String) (ac : ActionConfig) (srv t : String)
    (hsn : sn ≠ "") (hca : currentAction p ≠ "")
    (hac : lookupActionConfig p = some ac) (hs : ac.FaaSServer = some srv)
    (ht : lookupServerType p srv = some t) (hgh : t ≠ "GitHubActions") :
    faasr_secret env p sn = .error (.notImplementedError (unsupportedMsg t)) := by
  simp [faasr_secret, hsn, hca, hac, hs, ht, hgh]

/-- Witness for C6 at the spec scenario with `FaaSType = "AWS Lambda"`. -/
theorem faasr_secret_unsupported_platform_witness :
    faasr_secret envMS awsPayload "MY_SECRET" =
      .error (.notImplementedError (unsupportedMsg "AWS Lambda")) :=
  faasr_secret_unsupported_platform envMS awsPayload "MY_SECRET"
    ⟨some "s1"⟩ "s1" "AWS Lambda" (by decide) (by decide) rfl rfl rfl
    (by decide)

/-- C7: for every payload with a non-empty `FunctionInvoke` value `f`
absent from `ActionList`, and every non-empty secret name,
`faasr_secret` fails with the `RuntimeError` whose message names `f`. -/
theorem faasr_secret_missing_action_runtimeerror (env : Env) (p : Payload)
    (sn f : String) (hsn : sn ≠ "") (hf : p.FunctionInvoke = some f)
    (hfe : f ≠ "") (hal : lookupActionConfig p = none) :
    faasr_secret env p sn = .error (.runtimeError (notInActionListMsg f)) := by
  have hca : currentAction p = f := by simp [currentAction, hf]
  simp [faasr_secret, hsn, hca, hfe, hal]

/-- Witness for C7: `FunctionInvoke = "f2"` with only `f1` in
`ActionList`. -/
theorem faasr_secret_missing_action_runtimeerror_witness :
    faasr_secret envMS missingActionPayload "MY_SECRET" =
      .error (.runtimeError (notInActionListMsg "f2")) :=
  faasr_secret_missing_action_runtimeerror envMS missingActionPayload
    "MY_SECRET" "f2" (by decide) rfl (by decide) rfl

/-- C8: `faasr_secret` leaves the payload unchanged on the success path
and on every failure path: in the state-threaded embedding, where every
dict access of the source is a read, the payload after the call equals
the payload before it. -/
theorem faasr_secret_st_payload_unchanged (env : Env) (p : Payload)
    (sn : String) : (faasr_secret_st env p sn).2 = p := by
  simp [faasr_secret_st_eq]

/-- C9: `faasr_secret` is deterministic and idempotent: a second run on
the state left behind by a first run, with the same environment store
and secret name, produces the identical outcome (the same returned
string, or the same error kind with the same message) and the same
state. -/
theorem faasr_secret_deterministic_idempotent (env : Env) (p : Payload)
    (sn : String) :
    faasr_secret_st env (faasr_secret_st env p sn).2 sn =
      faasr_secret_st env p sn := by
  simp [faasr_secret_st_eq]

end FaaSrSecrets
